import Mathlib

/-!
# Verification of `openchain/crypto/validator/validator_db.go`

Shallow embedding of the validator certificate store: a fetch-through cache
for enrollment certificates backed by a single SQLite table
`Certificates(id VARCHAR PRIMARY KEY, cert BLOB)`.

Modelling conventions:

* Go `[]byte` values are `Option Bytes` (`none` is the Go `nil` slice /
  SQL `NULL` blob, `some bs` a non-nil slice); `Bytes` is `List Nat`
  with entries understood as bytes (< 256).
* A Go pair `([]byte, error)` as returned by `selectEnrollmentCert`,
  `certFetcher` and `GetEnrollmentCert` is `Except DBErr (Option Bytes)`:
  `.error e` is `(nil, err)`, `.ok none` is `(nil, nil)`, and
  `.ok (some bs)` is `(bs, nil)`.  (The Go code never returns a non-nil
  slice together with a non-nil error.)
* The SQLite engine's nondeterministic failures (a query, `Begin`, `Exec`
  or `Commit` failing for engine reasons) are resolved by an explicit
  environment `SQLEnv` of failure flags, one per call site.
* The `Certificates` table is an association list of rows; the PRIMARY KEY
  constraint makes `INSERT` fail exactly when a row with the key exists.
* Logging calls are observability plumbing and are not modelled.
-/

namespace ValidatorDB

/-- Byte strings (`[]byte` contents); entries are bytes, i.e. `< 256`. -/
abbrev Bytes := List Nat

/-! ## `utils.EncodeBase64`

`utils.EncodeBase64` (package `openchain/crypto/utils`, an external
collaborator of this file) is Go's `base64.StdEncoding.EncodeToString`:
standard RFC 4648 base64 with `=` padding. -/

/-- The standard base64 alphabet. -/
def b64Alphabet : List Char :=
  "ABCDEFGHIJKLMNOPQRSTUVWXYZabcdefghijklmnopqrstuvwxyz0123456789+/".toList

/-- The base64 digit for a 6-bit value. -/
def b64Char (n : Nat) : Char := b64Alphabet.getD n 'A'

/-- Standard base64 encoding of a byte list, three bytes to four digits,
`=`-padded. -/
def encodeB64Chunks : List Nat → List Char
  | [] => []
  | [a] =>
      [b64Char (a / 4 % 64), b64Char (a % 4 * 16), '=', '=']
  | [a, b] =>
      [b64Char (a / 4 % 64), b64Char (a % 4 * 16 + b / 16 % 16),
       b64Char (b % 16 * 4), '=']
  | a :: b :: c :: rest =>
      b64Char (a / 4 % 64) :: b64Char (a % 4 * 16 + b / 16 % 16) ::
      b64Char (b % 16 * 4 + c / 64 % 4) :: b64Char (c % 64) ::
      encodeB64Chunks rest

/-- `utils.EncodeBase64(id)`. -/
def encodeBase64 (bs : Bytes) : String := ⟨encodeB64Chunks bs⟩

/-! ## The `Certificates` table -/

/-- Errors produced by the embedded code.  `selectFailed`, `beginFailed`,
`insertFailed` and `commitFailed` stand for SQLite engine errors at the
corresponding call; `uniqueViolation` is the PRIMARY KEY constraint error
on `INSERT`; `fetchFailed` is an error returned by the caller-supplied
`certFetcher`. -/
inductive DBErr where
  | selectFailed
  | beginFailed
  | insertFailed
  | uniqueViolation
  | commitFailed
  | fetchFailed
  deriving DecidableEq, Repr

/-- A row of the `Certificates` table: key `id` and `cert` blob
(`none` is a `NULL` blob). -/
abbrev Table := List (String × Option Bytes)

/-- First row of the table whose `id` equals `sid`
(`SELECT cert FROM Certificates where id = ?`): `none` when no row matches,
`some v` when a row with blob `v` matches. -/
def lookupRow : Table → String → Option (Option Bytes)
  | [], _ => none
  | (k, v) :: rest, sid => if k = sid then some v else lookupRow rest sid

/-- `INSERT INTO Certificates (id, cert) VALUES (?, ?)` under the
PRIMARY KEY constraint on `id`: fails with `uniqueViolation` when a row
with key `sid` already exists, fails with `insertFailed` when the engine
fails (flag `engineFail`), and otherwise appends the row. -/
def insertRow (t : Table) (sid : String) (v : Option Bytes)
    (engineFail : Bool) : Except DBErr Table :=
  if engineFail then .error .insertFailed
  else
    match lookupRow t sid with
    | some _ => .error .uniqueViolation
    | none => .ok (t ++ [(sid, v)])

/-- The `DB` struct: its `sqlDB` connection gives access to the one
`Certificates` table, which is the state we carry. -/
structure DB where
  table : Table
  deriving DecidableEq, Repr

/-- Failure flags for the SQLite calls made during one `GetEnrollmentCert`
call, one flag per call site (`selectFail1` for the first
`selectEnrollmentCert`, `selectFail2` for the re-read after commit). -/
structure SQLEnv where
  selectFail1 : Bool
  beginFail : Bool
  insertFail : Bool
  commitFail : Bool
  selectFail2 : Bool
  deriving DecidableEq, Repr

/-- `(db *DB) selectEnrollmentCert(id string)`: runs the single-row query;
on `sql.ErrNoRows` returns `(nil, nil)` (here `.ok none`), on an engine
failure (flag `fail`) returns the error, otherwise returns the scanned
blob — scanning a `NULL` blob yields a nil slice, so a `NULL`-cert row
also produces `.ok none`, indistinguishable from the no-row case. -/
def selectEnrollmentCert (fail : Bool) (db : DB) (sid : String) :
    Except DBErr (Option Bytes) :=
  if fail then .error .selectFailed
  else
    match lookupRow db.table sid with
    | none => .ok none
    | some v => .ok v

/-- `(db *DB) GetEnrollmentCert(id []byte, certFetcher ...)`.

Mirrors the Go control flow: encode `id`; select; on error propagate; if
the selected cert is nil, fetch (propagating fetch errors), `Begin` a
transaction, `Exec` the insert (rolling back and propagating on failure),
`Commit` (rolling back and propagating on failure), then re-read via
`selectEnrollmentCert` and return its result.  A rolled-back transaction
leaves the table unchanged; a committed one installs the inserted row.
Returns the updated `DB` together with the Go `([]byte, error)` result. -/
def GetEnrollmentCert (env : SQLEnv) (db : DB) (id : Bytes)
    (certFetcher : Bytes → Except DBErr (Option Bytes)) :
    DB × Except DBErr (Option Bytes) :=
  let sid := encodeBase64 id
  match selectEnrollmentCert env.selectFail1 db sid with
  | .error e => (db, .error e)
  | .ok (some cert) => (db, .ok (some cert))
  | .ok none =>
      match certFetcher id with
      | .error e => (db, .error e)
      | .ok fetched =>
          if env.beginFail then (db, .error .beginFailed)
          else
            match insertRow db.table sid fetched env.insertFail with
            | .error e => (db, .error e)
            | .ok t =>
                if env.commitFail then (db, .error .commitFailed)
                else
                  let db' : DB := ⟨t⟩
                  match selectEnrollmentCert env.selectFail2 db' sid with
                  | .error e => (db', .error e)
                  | .ok cert => (db', .ok cert)

/-! ## Store lifecycle: `initDB`, `createDB`, `createDBIfDBPathEmpty`,
`openDB`, `deleteDB`, `CloseDB`

The filesystem and the process-wide globals (`var db *DB; var isOpen bool`)
are modelled as one state `DState`.  The path-checking helpers
`utils.DirMissingOrEmpty` and `utils.FileMissing`, and the path helpers
`getDBPath`, `getDBFilename`, `getDBFilePath`, live in other files of the
repository; they are modelled from the spec below. -/

/-- Filesystem and process-global state for the lifecycle operations:
whether the store directory exists and is non-empty, whether the store
file (`client.db`) exists, how many `Certificates` tables exist in the
store file (`CREATE TABLE IF NOT EXISTS` creates at most one), the number
of open storage-engine connections, and the process-wide `isOpen` flag. -/
structure DState where
  dirPresent : Bool
  dirNonEmpty : Bool
  filePresent : Bool
  tableCount : Nat
  openConns : Nat
  isOpen : Bool
  deriving DecidableEq, Repr

/-- Failure flags for the filesystem and engine calls made during the
lifecycle operations.  When `dirCheckFails` (resp. `fileCheckFails`) is
set, `utils.DirMissingOrEmpty` (resp. `utils.FileMissing`) returns an
error together with the arbitrary boolean `dirCheckVal` (resp.
`fileCheckVal`); `openFail` makes `sql.Open` inside `createDB` fail,
`pingFail` makes `db.Ping` fail, `createTableFail` makes the
`CREATE TABLE` exec fail, and `openDBFail` makes `sql.Open` inside
`openDB` fail. -/
structure BootEnv where
  dirCheckFails : Bool
  dirCheckVal : Bool
  fileCheckFails : Bool
  fileCheckVal : Bool
  openFail : Bool
  pingFail : Bool
  createTableFail : Bool
  openDBFail : Bool
  deriving DecidableEq, Repr

/-- Errors returned by the lifecycle operations: `alreadyExists` is the
`createDB` error `"db dir [..] already exists"`, `openFailed` an
`sql.Open` failure, `execFailed` a failed `CREATE TABLE` exec, and
`alreadyInit` is the `initDB` error `"DB already initialized."`. -/
inductive BootErr where
  | alreadyExists
  | openFailed
  | execFailed
  | alreadyInit
  deriving DecidableEq, Repr

/-- Outcome of a lifecycle operation: a normal `nil` return (`ok`), an
error return (`err`), or process termination via `log.Fatal` (`fatal`). -/
inductive BootRes where
  | ok
  | err (e : BootErr)
  | fatal
  deriving DecidableEq, Repr

/-- Modelled from the spec: `utils.DirMissingOrEmpty` (package
`openchain/crypto/utils`, not in this file) reports whether the resolved
store directory is missing or empty, and may itself fail; on failure the
boolean it reports is unconstrained (`env.dirCheckVal`). -/
def dirMissingOrEmpty (env : BootEnv) (s : DState) : Bool × Option Unit :=
  if env.dirCheckFails then (env.dirCheckVal, some ())
  else (!s.dirPresent || !s.dirNonEmpty, none)

/-- Modelled from the spec: `utils.FileMissing` (package
`openchain/crypto/utils`, not in this file) reports whether the store
file is missing from the resolved directory, and may itself fail; on
failure the boolean it reports is unconstrained (`env.fileCheckVal`).
`getDBFilename` and `getDBName` both resolve to the single deterministic
store file name, so both check sites consult the same `filePresent`. -/
def fileMissing (env : BootEnv) (s : DState) : Bool × Option Unit :=
  if env.fileCheckFails then (env.fileCheckVal, some ())
  else (!s.filePresent, none)

/-- `getDBName()`. -/
def getDBName : String := "client.db"

/-- `createDB()`: checks that the store file is missing (error
`"db dir [..] already exists"` otherwise — the `utils.FileMissing` error
itself is ignored), creates the directory (`os.MkdirAll`, error ignored),
opens the engine (`sql.Open`), pings it (`log.Fatal` on failure — the
process dies), creates the `Certificates` table if absent, and closes the
connection it opened (`defer db.Close()`, registered after the ping, so
it runs on both the exec-failure return and the success return).  The
local `db` shadows the global: the global handle and `isOpen` are never
touched. -/
def createDB (env : BootEnv) (s : DState) : DState × BootRes :=
  let missing := (fileMissing env s).1
  if !missing then (s, .err .alreadyExists)
  else
    let s1 := { s with dirPresent := true }
    if env.openFail then (s1, .err .openFailed)
    else
      let s2 := { s1 with openConns := s1.openConns + 1 }
      if env.pingFail then (s2, .fatal)
      else
        let s3 := { s2 with filePresent := true, dirNonEmpty := true }
        if env.createTableFail then
          ({ s3 with openConns := s3.openConns - 1 }, .err .execFailed)
        else
          let s4 := { s3 with
            tableCount := if s3.tableCount = 0 then 1 else s3.tableCount }
          ({ s4 with openConns := s4.openConns - 1 }, .ok)

/-- The combined missing check of `createDBIfDBPathEmpty`: the directory
check, and when the directory is present and non-empty, the file check
(errors from either check are logged and otherwise ignored). -/
def bootMissing (env : BootEnv) (s : DState) : Bool :=
  let missing := (dirMissingOrEmpty env s).1
  if !missing then (fileMissing env s).1 else missing

/-- `createDBIfDBPathEmpty()`: when the combined check says the store is
missing it calls `createDB`, but an error from `createDB` is only logged
(`return nil`) — the caller sees `nil` either way; only a `log.Fatal`
inside `createDB` escapes (by killing the process). -/
def createDBIfDBPathEmpty (env : BootEnv) (s : DState) : DState × BootRes :=
  if bootMissing env s then
    match createDB env s with
    | (s', .fatal) => (s', .fatal)
    | (s', .err _) => (s', .ok)
    | (s', .ok) => (s', .ok)
  else (s, .ok)

/-- `openDB()`: if `isOpen` is already set, returns the existing global
handle unchanged; otherwise opens a connection (propagating an `sql.Open`
failure) and sets `isOpen`. -/
def openDB (env : BootEnv) (s : DState) : DState × BootRes :=
  if s.isOpen then (s, .ok)
  else if env.openDBFail then (s, .err .openFailed)
  else ({ s with isOpen := true, openConns := s.openConns + 1 }, .ok)

/-- `initDB()`: fails with `"DB already initialized."` while `isOpen` is
set; otherwise runs `createDBIfDBPathEmpty` (propagating its result when
it is not `nil`) and then `openDB`. -/
def initDB (env : BootEnv) (s : DState) : DState × BootRes :=
  if s.isOpen then (s, .err .alreadyInit)
  else
    match createDBIfDBPathEmpty env s with
    | (s', .ok) => openDB env s'
    | (s', r) => (s', r)

/-- `deleteDB()`: `os.RemoveAll(getDBPath())` — whole-store teardown,
removing the directory, the store file and every table in it. -/
def deleteDB (s : DState) : DState :=
  { s with dirPresent := false, dirNonEmpty := false, filePresent := false,
           tableCount := 0 }

/-- `(db *DB) CloseDB()`: closes the connection and clears `isOpen`. -/
def CloseDB (s : DState) : DState :=
  { s with openConns := s.openConns - 1, isOpen := false }

/-- `(db *DB) Init()`: `return nil`. -/
def DB.Init (_db : DB) : Option DBErr := none

/-! ## Lookup lemmas -/

/-- Appending a row whose key is not yet in the table makes that key
found, with the appended blob. -/
theorem lookupRow_append_self (t : Table) (k : String) (v : Option Bytes)
    (h : lookupRow t k = none) : lookupRow (t ++ [(k, v)]) k = some v := by
  induction t with
  | nil => simp [lookupRow]
  | cons hd tl ih =>
      obtain ⟨k', v'⟩ := hd
      by_cases hk : k' = k
      · simp [lookupRow, hk] at h
      · simp [lookupRow, hk] at h ⊢
        exact ih h

/-- A key found in a table is still found, with the same blob, after any
rows are appended. -/
theorem lookupRow_append_of_some (t l : Table) (k : String)
    (c : Option Bytes) (h : lookupRow t k = some c) :
    lookupRow (t ++ l) k = some c := by
  induction t with
  | nil => simp [lookupRow] at h
  | cons hd tl ih =>
      obtain ⟨k', v'⟩ := hd
      by_cases hk : k' = k
      · simp [lookupRow, hk] at h ⊢
        exact h
      · simp [lookupRow, hk] at h ⊢
        exact ih h

/-! ## Claims -/

/-- C1: for an identity with no stored record, `GetEnrollmentCert` with a
fetcher that succeeds with bytes `C` (and no engine failure) appends the
row `(encodeBase64 id, C)` to the `Certificates` table and returns `C`. -/
theorem getEnrollmentCert_miss_then_fetch (env : SQLEnv) (db : DB)
    (id C : Bytes) (certFetcher : Bytes → Except DBErr (Option Bytes))
    (h1 : env.selectFail1 = false) (h2 : env.beginFail = false)
    (h3 : env.insertFail = false) (h4 : env.commitFail = false)
    (h5 : env.selectFail2 = false)
    (habs : lookupRow db.table (encodeBase64 id) = none)
    (hf : certFetcher id = .ok (some C)) :
    GetEnrollmentCert env db id certFetcher =
      (⟨db.table ++ [(encodeBase64 id, some C)]⟩, .ok (some C)) := by
  simp [GetEnrollmentCert, selectEnrollmentCert, insertRow, h1, h2, h3, h4,
    h5, habs, hf, lookupRow_append_self db.table (encodeBase64 id) (some C) habs]

/-- C1 witness: on the empty store, identity `[0x01, 0x02]` with a fetcher
returning `[0xAA, 0xBB]` stores `("AQI=", [0xAA, 0xBB])` and returns
`[0xAA, 0xBB]`. -/
theorem getEnrollmentCert_miss_then_fetch_witness :
    GetEnrollmentCert ⟨false, false, false, false, false⟩ ⟨[]⟩ [1, 2]
        (fun _ => .ok (some [170, 187])) =
      (⟨[("AQI=", some [170, 187])]⟩, .ok (some [170, 187])) := by
  have h := getEnrollmentCert_miss_then_fetch
    ⟨false, false, false, false, false⟩ ⟨[]⟩ [1, 2] [170, 187]
    (fun _ => .ok (some [170, 187])) rfl rfl rfl rfl rfl rfl rfl
  simpa [encodeBase64, encodeB64Chunks, b64Char, b64Alphabet] using h

/-- C2: when a record with (non-`NULL`) certificate `c` is stored for the
identity and the select succeeds, `GetEnrollmentCert` returns `c` with the
store unchanged, for every fetcher — the fetcher never influences the
result, so it is never consulted (in particular a fetcher that always
fails changes nothing). -/
theorem getEnrollmentCert_hit (env : SQLEnv) (db : DB) (id c : Bytes)
    (certFetcher : Bytes → Except DBErr (Option Bytes))
    (h1 : env.selectFail1 = false)
    (hrec : lookupRow db.table (encodeBase64 id) = some (some c)) :
    GetEnrollmentCert env db id certFetcher = (db, .ok (some c)) := by
  simp [GetEnrollmentCert, selectEnrollmentCert, h1, hrec]

/-- C2 witness: with `("AQI=", [0xAA, 0xBB])` stored, `GetEnrollmentCert`
for identity `[0x01, 0x02]` with an always-failing fetcher still returns
`[0xAA, 0xBB]` and leaves the store unchanged. -/
theorem getEnrollmentCert_hit_witness :
    GetEnrollmentCert ⟨false, false, false, false, false⟩
        ⟨[("AQI=", some [170, 187])]⟩ [1, 2] (fun _ => .error .fetchFailed) =
      (⟨[("AQI=", some [170, 187])]⟩, .ok (some [170, 187])) := by
  have h := getEnrollmentCert_hit ⟨false, false, false, false, false⟩
    ⟨[("AQI=", some [170, 187])]⟩ [1, 2] [170, 187]
    (fun _ => .error .fetchFailed) rfl (by
      simp [encodeBase64, encodeB64Chunks, b64Char, b64Alphabet, lookupRow])
  simpa using h

/-- A successful `insertRow` appends exactly the inserted row. -/
theorem insertRow_ok_eq (t : Table) (sid : String) (v : Option Bytes)
    (f : Bool) (t' : Table) (h : insertRow t sid v f = .ok t') :
    t' = t ++ [(sid, v)] := by
  unfold insertRow at h
  split at h
  · cases h
  · split at h
    · cases h
    · cases h
      rfl

/-- C3 counterexample: on the empty store, a fetcher returning a nil
certificate with no error (Go `return nil, nil`) drives the miss path to
a successful insert and commit of a `NULL`-cert row; the re-read then
yields no certificate, yet `GetEnrollmentCert` returns `.ok none` —
success with an absent certificate, not a storage error. -/
theorem getEnrollmentCert_reread_nil_success :
    GetEnrollmentCert ⟨false, false, false, false, false⟩ ⟨[]⟩ [1, 2]
        (fun _ => .ok none) =
      (⟨[("AQI=", none)]⟩, .ok none) := by
  rfl

/-- C3 amended: in the miss path with a committed insert of the fetched
value `v`, if the post-commit re-read fails, the select error is
propagated; if it succeeds, `GetEnrollmentCert` returns success with
exactly the re-read value — which is an absent certificate when the
fetcher produced a nil one — rather than turning an absent certificate
into a storage error. -/
theorem getEnrollmentCert_reread (env : SQLEnv) (db : DB) (id : Bytes)
    (v : Option Bytes) (certFetcher : Bytes → Except DBErr (Option Bytes))
    (h1 : env.selectFail1 = false) (h2 : env.beginFail = false)
    (h3 : env.insertFail = false) (h4 : env.commitFail = false)
    (habs : lookupRow db.table (encodeBase64 id) = none)
    (hf : certFetcher id = .ok v) :
    GetEnrollmentCert env db id certFetcher =
      (⟨db.table ++ [(encodeBase64 id, v)]⟩,
        if env.selectFail2 then .error .selectFailed else .ok v) := by
  cases hsel : env.selectFail2 <;>
    simp [GetEnrollmentCert, selectEnrollmentCert, insertRow, h1, h2, h3,
      h4, hsel, habs, hf,
      lookupRow_append_self db.table (encodeBase64 id) v habs]

/-- C3 amended witness: with the re-read select failing, the error is
propagated while the committed row remains stored. -/
theorem getEnrollmentCert_reread_witness :
    GetEnrollmentCert ⟨false, false, false, false, true⟩ ⟨[]⟩ [1, 2]
        (fun _ => .ok (some [7])) =
      (⟨[("AQI=", some [7])]⟩, .error .selectFailed) := by
  have h := getEnrollmentCert_reread ⟨false, false, false, false, true⟩
    ⟨[]⟩ [1, 2] (some [7]) (fun _ => .ok (some [7])) rfl rfl rfl rfl rfl rfl
  simpa [encodeBase64, encodeB64Chunks, b64Char, b64Alphabet] using h

/-- C4: in the miss path (the first select succeeded with no certificate
and the fetch and `Begin` succeeded), every failing insert — the engine
failing or the PRIMARY KEY uniqueness violation — is rolled back: the
store is unchanged and the insert error is propagated to the caller. -/
theorem getEnrollmentCert_insert_fail_rollback (env : SQLEnv) (db : DB)
    (id : Bytes) (v : Option Bytes) (e : DBErr)
    (certFetcher : Bytes → Except DBErr (Option Bytes))
    (hmiss : selectEnrollmentCert env.selectFail1 db (encodeBase64 id) = .ok none)
    (hf : certFetcher id = .ok v) (h2 : env.beginFail = false)
    (hins : insertRow db.table (encodeBase64 id) v env.insertFail = .error e) :
    GetEnrollmentCert env db id certFetcher = (db, .error e) := by
  simp [GetEnrollmentCert, hmiss, hf, h2, hins]

/-- C4 witness: with a `NULL`-cert row pre-inserted under key `"AQI="`,
the first select reports no certificate, the insert hits the PRIMARY KEY
uniqueness violation, and `GetEnrollmentCert` returns that error with the
store unchanged. -/
theorem getEnrollmentCert_insert_fail_rollback_witness :
    GetEnrollmentCert ⟨false, false, false, false, false⟩
        ⟨[("AQI=", none)]⟩ [1, 2] (fun _ => .ok (some [7])) =
      (⟨[("AQI=", none)]⟩, .error .uniqueViolation) := by
  have h := getEnrollmentCert_insert_fail_rollback
    ⟨false, false, false, false, false⟩ ⟨[("AQI=", none)]⟩ [1, 2]
    (some [7]) .uniqueViolation (fun _ => .ok (some [7]))
    (by simp [selectEnrollmentCert, encodeBase64, encodeB64Chunks, b64Char,
      b64Alphabet, lookupRow])
    rfl rfl
    (by simp [insertRow, encodeBase64, encodeB64Chunks, b64Char,
      b64Alphabet, lookupRow])
  simpa using h

/-- C8: a stored record survives every `GetEnrollmentCert` call unchanged
— for any engine behaviour, any identity being queried and any fetcher,
a key that maps to blob `c` before the call still maps to `c` after it.
`GetEnrollmentCert` only ever appends a row for a key with no existing
row (a rolled-back insert leaves the table untouched), so the certificate
observed for an identity is stable across all subsequent calls. -/
theorem getEnrollmentCert_preserves_records (env : SQLEnv) (db : DB)
    (id : Bytes) (certFetcher : Bytes → Except DBErr (Option Bytes))
    (sid : String) (c : Option Bytes)
    (h : lookupRow db.table sid = some c) :
    lookupRow (GetEnrollmentCert env db id certFetcher).1.table sid = some c := by
  unfold GetEnrollmentCert
  dsimp only
  cases hsel : selectEnrollmentCert env.selectFail1 db (encodeBase64 id) with
  | error e => exact h
  | ok o =>
    cases o with
    | some cert => exact h
    | none =>
      cases hf : certFetcher id with
      | error e => exact h
      | ok fetched =>
        cases hb : env.beginFail with
        | true => exact h
        | false =>
          dsimp only
          cases hins : insertRow db.table (encodeBase64 id) fetched
              env.insertFail with
          | error e => exact h
          | ok t =>
            cases hc : env.commitFail with
            | true => exact h
            | false =>
              dsimp only
              rw [insertRow_ok_eq db.table (encodeBase64 id) fetched
                env.insertFail t hins]
              cases hsel2 : selectEnrollmentCert env.selectFail2
                  ⟨db.table ++ [(encodeBase64 id, fetched)]⟩
                  (encodeBase64 id) with
              | error e =>
                  exact lookupRow_append_of_some db.table _ sid c h
              | ok cert =>
                  exact lookupRow_append_of_some db.table _ sid c h

/-- C8 witness: the record `("AQI=", [0xAA])` survives a
`GetEnrollmentCert` call for the distinct identity `[0x03]`. -/
theorem getEnrollmentCert_preserves_records_witness :
    lookupRow (GetEnrollmentCert ⟨false, false, false, false, false⟩
        ⟨[("AQI=", some [170])]⟩ [3] (fun _ => .ok (some [9]))).1.table
      "AQI=" = some (some [170]) := by
  exact getEnrollmentCert_preserves_records
    ⟨false, false, false, false, false⟩ ⟨[("AQI=", some [170])]⟩ [3]
    (fun _ => .ok (some [9])) "AQI=" (some [170]) (by simp [lookupRow])

/-- C9: the exported `DB.Init` returns `nil` for every receiver and
performs no work. -/
theorem db_init_always_nil (db : DB) : DB.Init db = none := rfl

/-- A fully failure-free lifecycle environment. -/
def goodBootEnv : BootEnv :=
  ⟨false, false, false, false, false, false, false, false⟩

/-- The state of a fresh, never-bootstrapped path: no directory, no store
file, no table, nothing open. -/
def emptyState : DState := ⟨false, false, false, 0, 0, false⟩

/-- C5: with the checks and the engine not failing, bootstrapping a path
whose directory is present and non-empty and whose store file exists is a
no-op returning success; and bootstrapping an initially-empty path twice
succeeds both times, the second run changes nothing, and exactly one
`Certificates` table exists afterwards. -/
theorem bootstrap_idempotent (env : BootEnv) (s t : DState)
    (he1 : env.dirCheckFails = false) (he2 : env.fileCheckFails = false)
    (he3 : env.openFail = false) (he4 : env.pingFail = false)
    (he5 : env.createTableFail = false)
    (ht1 : t.dirPresent = true) (ht2 : t.dirNonEmpty = true)
    (ht3 : t.filePresent = true)
    (hs1 : s.dirNonEmpty = false) (hs2 : s.filePresent = false)
    (hs3 : s.tableCount = 0) :
    createDBIfDBPathEmpty env t = (t, .ok) ∧
    (createDBIfDBPathEmpty env s).2 = .ok ∧
    createDBIfDBPathEmpty env (createDBIfDBPathEmpty env s).1 =
      ((createDBIfDBPathEmpty env s).1, .ok) ∧
    (createDBIfDBPathEmpty env s).1.tableCount = 1 := by
  refine ⟨?_, ?_, ?_, ?_⟩ <;>
    simp [createDBIfDBPathEmpty, bootMissing, dirMissingOrEmpty, fileMissing,
      createDB, he1, he2, he3, he4, he5, ht1, ht2, ht3, hs1, hs2, hs3]

/-- C5 witness: bootstrapping the already-bootstrapped state is a no-op,
and bootstrapping the fresh empty path twice succeeds both times leaving
one table. -/
theorem bootstrap_idempotent_witness :
    createDBIfDBPathEmpty goodBootEnv ⟨true, true, true, 1, 0, false⟩ =
      (⟨true, true, true, 1, 0, false⟩, .ok) ∧
    (createDBIfDBPathEmpty goodBootEnv emptyState).2 = .ok ∧
    createDBIfDBPathEmpty goodBootEnv
        (createDBIfDBPathEmpty goodBootEnv emptyState).1 =
      ((createDBIfDBPathEmpty goodBootEnv emptyState).1, .ok) ∧
    (createDBIfDBPathEmpty goodBootEnv emptyState).1.tableCount = 1 :=
  bootstrap_idempotent goodBootEnv emptyState ⟨true, true, true, 1, 0, false⟩
    rfl rfl rfl rfl rfl rfl rfl rfl rfl rfl rfl

/-- C6: while the process-wide `isOpen` flag is set, `initDB` returns the
`"DB already initialized."` error and neither re-runs the bootstrap nor
reopens the store — the state is unchanged. -/
theorem initDB_already_open (env : BootEnv) (s : DState)
    (h : s.isOpen = true) : initDB env s = (s, .err .alreadyInit) := by
  simp [initDB, h]

/-- C6 witness: a first `initDB` on the fresh path opens the store; the
second `initDB` returns the already-initialized error and changes
nothing. -/
theorem initDB_already_open_witness :
    initDB goodBootEnv (initDB goodBootEnv emptyState).1 =
      ((initDB goodBootEnv emptyState).1, .err .alreadyInit) :=
  initDB_already_open goodBootEnv (initDB goodBootEnv emptyState).1 (by decide)

/-- C7: whenever the combined missing check routes bootstrap into
`createDB` and `createDB` returns an error, `createDBIfDBPathEmpty` only
logs it and returns success (`nil`), so its caller cannot observe the
store-creation failure. -/
theorem bootstrap_swallows_create_error (env : BootEnv) (s : DState)
    (e : BootErr) (hm : bootMissing env s = true)
    (herr : (createDB env s).2 = .err e) :
    createDBIfDBPathEmpty env s = ((createDB env s).1, .ok) := by
  unfold createDBIfDBPathEmpty
  rw [hm]
  rcases hc : createDB env s with ⟨s', r⟩
  rw [hc] at herr
  simp at herr
  subst herr
  simp

/-- C7 witness: on the fresh path with the `CREATE TABLE` exec failing,
`createDB` returns `execFailed`, yet `createDBIfDBPathEmpty` returns
success. -/
theorem bootstrap_swallows_create_error_witness :
    createDBIfDBPathEmpty { goodBootEnv with createTableFail := true }
        emptyState =
      ((createDB { goodBootEnv with createTableFail := true } emptyState).1,
        .ok) :=
  bootstrap_swallows_create_error
    { goodBootEnv with createTableFail := true } emptyState .execFailed
    (by decide) (by decide)

/-- C10: whenever `createDB` returns (it does not `log.Fatal`), it has
closed every connection it opened — the open-connection count is back to
its initial value — and it never touches the process-wide `isOpen` flag,
so after bootstrap alone the store is not open. -/
theorem createDB_closes_conn_preserves_open (env : BootEnv) (s : DState)
    (h : (createDB env s).2 ≠ .fatal) :
    (createDB env s).1.openConns = s.openConns ∧
    (createDB env s).1.isOpen = s.isOpen := by
  cases hf : (fileMissing env s).1 <;> cases ho : env.openFail <;>
    cases hp : env.pingFail <;> cases hc : env.createTableFail <;>
    simp_all [createDB]

/-- C10 witness: on the fresh path with no failures, `createDB` returns
normally with zero connections open and the store not open. -/
theorem createDB_closes_conn_preserves_open_witness :
    (createDB goodBootEnv emptyState).1.openConns = 0 ∧
    (createDB goodBootEnv emptyState).1.isOpen = false :=
  createDB_closes_conn_preserves_open goodBootEnv emptyState (by decide)

end ValidatorDB
